import Mathlib

/-
Shallow embedding of the experiment execution and data-persistence pipeline
of the adverbial_quantification repository (src/hosting/src/experiment.ts and
its two unnamed variants).

The two jsPsych callbacks registered in initJsPsych, on_data_update and
on_finish, are pure handlers that react to an event by performing a sequence
of side effects (console output, asynchronous persistence dispatches, DOM
replacements, scheduled timers).  We embed each handler as a function from
its inputs - the trial-data event or collected dataset, the startup
configuration (debug flag, mock-backend flag, completion code, completion
URL), the DOM state, and the eventual resolution of the asynchronous save
call it dispatches - to the explicit list of effects it performs, in order.
The save resolution is a parameter because the handler attaches both a
success and a failure continuation to the dispatched promise; the trace for
a given resolution lists the dispatch followed by the effects of the
continuation that the resolution selects.

The debrief block of the third variant computes accuracy and mean reaction
time with JavaScript number arithmetic, where division of zero by zero
produces NaN rather than raising an error; we embed JavaScript numbers as a
rational extended with NaN and Infinity.
-/

namespace Experiment

/-- Task tag of a timeline unit, from the TrialData interface. -/
inductive Task where
  | response : Task
  | fixation : Task
deriving DecidableEq, Repr

/-- Observed response side, from the TrialData interface. -/
inductive Response where
  | left : Response
  | right : Response
deriving DecidableEq, Repr

/-- One trial-data event, from the TrialData interface of experiment.ts,
together with the reaction-time field rt that the rendering engine adds to
every data record. -/
structure TrialData where
  task : Task
  response : Response
  correct : Bool
  correct_response : Response
  rt : ℚ
  saveIncrementally : Bool
deriving DecidableEq, Repr

/-- Startup configuration: the debugging and mockStore flags and the
Prolific completion code and completion URL, all resolved once from
globalVariables at module load. -/
structure Config where
  debug : Bool
  mock : Bool
  prolificCC : String
  prolificCUrl : String
deriving DecidableEq, Repr

/-- The part of the DOM state the handlers consult: whether an element with
id jspsych-content is present (document.querySelector finds it). -/
structure DomState where
  contentDivExists : Bool
deriving DecidableEq, Repr

/-- Eventual resolution of an asynchronous save call dispatched to the
persistence adapter: the promise either fulfills or rejects. -/
inductive SaveOutcome where
  | success : SaveOutcome
  | failure : SaveOutcome
deriving DecidableEq, Repr

/-- The jsPsych DataCollection handed to on_finish and returned by
jsPsych.data.get(): the ordered list of all trial-data events of the
session. -/
structure DataCollection where
  trials : List TrialData
deriving DecidableEq, Repr

/-- DataCollection.values(): the plain array of records. -/
def DataCollection.values (d : DataCollection) : List TrialData :=
  d.trials

/-- DataCollection.count(): the number of records. -/
def DataCollection.count (d : DataCollection) : Nat :=
  d.trials.length

/-- DataCollection.filter with a task tag, as in filter on task response. -/
def DataCollection.filterTask (d : DataCollection) (t : Task) : DataCollection :=
  ⟨d.trials.filter (fun e => e.task == t)⟩

/-- DataCollection.filter with a correctness value, as in filter on correct
true. -/
def DataCollection.filterCorrect (d : DataCollection) (b : Bool) : DataCollection :=
  ⟨d.trials.filter (fun e => e.correct == b)⟩

/-- DataCollection.select on the rt column: the list of reaction times. -/
def DataCollection.selectRt (d : DataCollection) : List ℚ :=
  d.trials.map (fun e => e.rt)

/-- One observable side effect performed by a handler, in the order the
handler performs them.  Console effects are the logged output; dispatch
effects are the asynchronous calls handed to the persistence adapter;
the remaining effects replace parts of the DOM or schedule a timer. -/
inductive Effect where
  | consoleLog (msg : String) : Effect
  | consoleLogData (records : List TrialData) : Effect
  | consoleError : Effect
  | savePartialDispatch (record : TrialData) : Effect
  | saveCompleteDispatch (records : List TrialData) : Effect
  | updateDebugPanel : Effect
  | setContentHTML (html : String) : Effect
  | setBodyHTML (html : String) : Effect
  | scheduleRedirect (url : String) (delayMs : Nat) : Effect
  | scheduleDisplayData (delayMs : Nat) : Effect
deriving DecidableEq, Repr

/-- The debuggingText fragment of the exit message: in debug mode it echoes
the redirect URL, otherwise it is a line break. -/
def debuggingText (cfg : Config) : String :=
  if cfg.debug then "<br /><br />redirect link : " ++ cfg.prolificCUrl else "<br />"

/-- The literal part of the exit message that precedes the interpolated
completion code. -/
def exitMessageHead : String :=
  "<p class=\"text-center align-middle\">\nPlease wait. You will be redirected back to Prolific in a few moments.\n<br /><br />\nIf not, please use the following completion code to ensure compensation for this study: "

/-- The exitMessage template literal: fixed text, then the completion code,
then the debuggingText fragment. -/
def exitMessage (cfg : Config) : String :=
  exitMessageHead ++ cfg.prolificCC ++ ("\n" ++ debuggingText cfg ++ "\n</p>")

/-- The notice shown while the final save is in flight. -/
def savingMessage : String :=
  "<p> Please wait, your data are being saved.</p>"

/-- exitExperiment: replace the whole document body with the exit message
and schedule the redirect to the Prolific completion URL after 3000 ms. -/
def exitExperiment (cfg : Config) : List Effect :=
  [Effect.setBodyHTML (exitMessage cfg), Effect.scheduleRedirect cfg.prolificCUrl 3000]

/-- exitExperimentDebugging: if the jspsych-content element exists, replace
its content with the exit message; otherwise do nothing. -/
def exitExperimentDebugging (cfg : Config) (dom : DomState) : List Effect :=
  if dom.contentDivExists then [Effect.setContentHTML (exitMessage cfg)] else []

/-- The on_data_update handler: log the event in debug mode; then, exactly
when the saveIncrementally flag of the event is set, dispatch one
asynchronous save-one call, whose success continuation logs success in
debug mode and refreshes the debug panel when the mock flag is also set,
and whose failure continuation logs the error. -/
def on_data_update (cfg : Config) (trialData : TrialData) (outcome : SaveOutcome) : List Effect :=
  (if cfg.debug then [Effect.consoleLog "jsPsych-update :: trialData ::"] else []) ++
    (if trialData.saveIncrementally then
      Effect.savePartialDispatch trialData ::
        (match outcome with
          | SaveOutcome.success =>
            if cfg.debug then
              Effect.consoleLog "saveTrialDataPartial: Success" ::
                (if cfg.mock then [Effect.updateDebugPanel] else [])
            else []
          | SaveOutcome.failure => [Effect.consoleError])
    else [])

/-- The on_finish handler: if the jspsych-content element exists, replace
its content with the saving notice; dispatch one asynchronous save-all call
carrying the plain list of records of the collected dataset; on success, in
debug mode show the exit message in the content element, log, and schedule
the data display, and otherwise run exitExperiment; on failure, log the
error and run exitExperiment. -/
def on_finish (cfg : Config) (dom : DomState) (data : DataCollection) (outcome : SaveOutcome) : List Effect :=
  (if dom.contentDivExists then [Effect.setContentHTML savingMessage] else []) ++
    (Effect.saveCompleteDispatch (DataCollection.values data) ::
      (match outcome with
        | SaveOutcome.success =>
          if cfg.debug then
            exitExperimentDebugging cfg dom ++
              [Effect.consoleLog "saveTrialDataComplete: Success",
                Effect.consoleLog "jsPsych-finish :: data ::",
                Effect.consoleLogData (DataCollection.values data),
                Effect.scheduleDisplayData 3000]
          else exitExperiment cfg
        | SaveOutcome.failure => Effect.consoleError :: exitExperiment cfg))

/-- A JavaScript number as the debrief arithmetic uses it: a rational, NaN,
or Infinity. -/
inductive JSNum where
  | nan : JSNum
  | inf : JSNum
  | num (q : ℚ) : JSNum
deriving DecidableEq, Repr

/-- JavaScript division of two rationals: zero divided by zero is NaN, a
nonzero value divided by zero is Infinity, anything else is exact. -/
def jsDivQ (a b : ℚ) : JSNum :=
  if b = 0 then (if a = 0 then JSNum.nan else JSNum.inf) else JSNum.num (a / b)

/-- JavaScript multiplication of a number by a rational constant; the
debrief block only multiplies by the positive constant 100, for which
Infinity stays Infinity. -/
def jsMul (x : JSNum) (c : ℚ) : JSNum :=
  match x with
  | JSNum.nan => JSNum.nan
  | JSNum.inf => JSNum.inf
  | JSNum.num q => JSNum.num (q * c)

/-- Math.round: round half toward positive infinity; NaN and Infinity pass
through. -/
def jsRound : JSNum → JSNum
  | JSNum.nan => JSNum.nan
  | JSNum.inf => JSNum.inf
  | JSNum.num q => JSNum.num ((⌊q + 1 / 2⌋ : ℤ) : ℚ)

/-- DataColumn.mean: the sum of the column divided by its length, with
JavaScript division, so the mean of an empty column is NaN. -/
def jsMean (l : List ℚ) : JSNum :=
  jsDivQ l.sum (l.length : ℚ)

/-- The trials variable of the debrief block: the collected data filtered
to the response task tag. -/
def debrief_trials (store : DataCollection) : DataCollection :=
  store.filterTask Task.response

/-- The correct_trials variable of the debrief block: the response trials
filtered to correct = true. -/
def debrief_correct_trials (store : DataCollection) : DataCollection :=
  (debrief_trials store).filterCorrect true

/-- The two numbers the debrief block interpolates into its stimulus. -/
structure DebriefOutput where
  accuracy : JSNum
  rt : JSNum
deriving DecidableEq, Repr

/-- The debrief summarizer: accuracy is the rounded percentage of correct
response trials among all response trials, reaction time is the rounded
mean of the rt column over the correct response trials, both with
JavaScript arithmetic. -/
def debriefSummary (store : DataCollection) : DebriefOutput :=
  { accuracy :=
      jsRound (jsMul (jsDivQ ((debrief_correct_trials store).count : ℚ) ((debrief_trials store).count : ℚ)) 100)
    rt := jsRound (jsMean (DataCollection.selectRt (debrief_correct_trials store))) }

/-- One run of the debrief stimulus function: it reads the data store,
computes the summary, and leaves the store unchanged. -/
def debriefRun (store : DataCollection) : DebriefOutput × DataCollection :=
  (debriefSummary store, store)

/-- Recognizer for a save-one dispatch effect. -/
def isSavePartialDispatch : Effect → Bool
  | Effect.savePartialDispatch _ => true
  | _ => false

/-- The arguments of the save-all dispatches in an effect trace. -/
def saveCompleteArgs (effects : List Effect) : List (List TrialData) :=
  effects.filterMap (fun e =>
    match e with
    | Effect.saveCompleteDispatch records => some records
    | _ => none)

/-- Effects a participant or developer can observe outside the console:
DOM replacements, scheduled timers, and the debug-panel refresh. -/
def userVisible : Effect → Bool
  | Effect.setContentHTML _ => true
  | Effect.setBodyHTML _ => true
  | Effect.scheduleRedirect _ _ => true
  | Effect.scheduleDisplayData _ => true
  | Effect.updateDebugPanel => true
  | _ => false

/-- A production configuration used to instantiate witnesses. -/
def cfgProd : Config :=
  ⟨false, false, "C1AB23CD", "https://app.prolific.com/submissions/complete"⟩

/-- A debug configuration used in the counterexample for the claim that the
two terminal behaviors agree in every mode. -/
def cfgDebug : Config :=
  ⟨true, false, "C1AB23CD", "https://app.prolific.com/submissions/complete"⟩

/-- A DOM state in which the jspsych-content element exists. -/
def domMain : DomState := ⟨true⟩

/-- An empty collected dataset. -/
def emptyStore : DataCollection := ⟨[]⟩

/-- A response trial event with a given correctness and reaction time. -/
def respTrial (b : Bool) (r : ℚ) : TrialData :=
  ⟨Task.response, Response.left, b, Response.left, r, false⟩

/-- A fixation event: a bookkeeping unit with no response tag. -/
def fixTrial : TrialData :=
  ⟨Task.fixation, Response.left, false, Response.left, 0, false⟩

/-- A dataset holding a single fixation event and no response-tagged
events. -/
def fixStore : DataCollection := ⟨[fixTrial]⟩

/-- The dataset of Scenario C: three response trials, correct with rt 500,
incorrect with rt 700, correct with rt 300. -/
def scenarioCStore : DataCollection :=
  ⟨[respTrial true 500, respTrial false 700, respTrial true 300]⟩

/-- An incrementally saved trial event used to instantiate witnesses. -/
def incTrial : TrialData :=
  ⟨Task.response, Response.right, true, Response.right, 450, true⟩

/-- C1: for every trial-data event received by on_data_update, exactly one
asynchronous save-one call is dispatched when the saveIncrementally flag of
the event is true, and none when it is false, whatever the eventual
resolution of the dispatched call. -/
theorem c1_save_one_dispatch_count (cfg : Config) (trialData : TrialData) (outcome : SaveOutcome) :
    (on_data_update cfg trialData outcome).countP isSavePartialDispatch =
      (if trialData.saveIncrementally then 1 else 0) := by
  rcases cfg with ⟨d, m, cc, url⟩
  rcases trialData with ⟨t, r, co, cr, rt, si⟩
  cases si <;> cases outcome <;> cases d <;> cases m <;>
    simp [on_data_update, isSavePartialDispatch]

/-- C2: on timeline completion, on_finish dispatches exactly one
asynchronous save-all call, and its argument is the full collected dataset
converted to the plain list of its records, in every configuration, DOM
state, and save resolution. -/
theorem c2_save_all_single_dispatch (cfg : Config) (dom : DomState) (data : DataCollection) (outcome : SaveOutcome) :
    saveCompleteArgs (on_finish cfg dom data outcome) = [data.trials] := by
  rcases cfg with ⟨d, m, cc, url⟩
  rcases dom with ⟨cd⟩
  cases outcome <;> cases cd <;> cases d <;>
    simp [on_finish, saveCompleteArgs, exitExperiment, exitExperimentDebugging,
      DataCollection.values]

/-- C8: the debug-panel refresh runs exactly when an incremental save-one
call was dispatched and resolved successfully while both the debug flag and
the mock-backend flag are active. -/
theorem c8_debug_panel_refresh_iff (cfg : Config) (trialData : TrialData) (outcome : SaveOutcome) :
    Effect.updateDebugPanel ∈ on_data_update cfg trialData outcome ↔
      (outcome = SaveOutcome.success ∧ cfg.debug = true ∧ cfg.mock = true ∧
        trialData.saveIncrementally = true) := by
  rcases cfg with ⟨d, m, cc, url⟩
  rcases trialData with ⟨t, r, co, cr, rt, si⟩
  cases outcome <;> cases d <;> cases m <;> cases si <;>
    simp [on_data_update]

/-- C9: the debrief summarizer is deterministic and leaves the data store
unchanged: a second run over the store left by a first run yields the same
output, and running it does not modify the store. -/
theorem c9_debrief_deterministic (store : DataCollection) :
    (debriefRun store).1 = (debriefRun (debriefRun store).2).1 ∧
      (debriefRun store).2 = store :=
  ⟨rfl, rfl⟩

/-- C10: the please-wait notice is written exactly when the jspsych-content
element exists in the document, and the single save-all dispatch is issued
in either case. -/
theorem c10_please_wait_conditional (cfg : Config) (dom : DomState) (data : DataCollection) (outcome : SaveOutcome) :
    (Effect.setContentHTML savingMessage ∈ on_finish cfg dom data outcome ↔
      dom.contentDivExists = true) ∧
    saveCompleteArgs (on_finish cfg dom data outcome) = [data.trials] := by
  rcases cfg with ⟨d, m, cc, url⟩
  rcases dom with ⟨cd⟩
  cases outcome <;> cases cd <;> cases d <;>
    simp [on_finish, saveCompleteArgs, exitExperiment, exitExperimentDebugging,
      DataCollection.values]

/-- C3: when the final save-all call fails, the error is logged, the body
is still replaced by the exit notice, which contains the completion code,
and the redirect to the completion URL is still scheduled; outside debug
mode this is exactly the participant-visible behavior of the success
path. -/
theorem c3_failed_final_save_exit_path (cfg : Config) (dom : DomState) (data : DataCollection) :
    Effect.consoleError ∈ on_finish cfg dom data SaveOutcome.failure ∧
    Effect.setBodyHTML (exitMessage cfg) ∈ on_finish cfg dom data SaveOutcome.failure ∧
    Effect.scheduleRedirect cfg.prolificCUrl 3000 ∈ on_finish cfg dom data SaveOutcome.failure ∧
    (∃ a b, exitMessage cfg = a ++ cfg.prolificCC ++ b) ∧
    (cfg.debug = false →
      (on_finish cfg dom data SaveOutcome.failure).filter userVisible =
        (on_finish cfg dom data SaveOutcome.success).filter userVisible) := by
  rcases cfg with ⟨d, m, cc, url⟩
  rcases dom with ⟨cd⟩
  refine ⟨?_, ?_, ?_,
    ⟨exitMessageHead, "\n" ++ debuggingText ⟨d, m, cc, url⟩ ++ "\n</p>", rfl⟩, ?_⟩
  · cases cd <;> simp [on_finish, exitExperiment]
  · cases cd <;> simp [on_finish, exitExperiment]
  · cases cd <;> simp [on_finish, exitExperiment]
  · intro h
    obtain rfl : d = false := h
    cases cd <;>
      simp [on_finish, exitExperiment, userVisible, DataCollection.values]

/-- Witness for C3 at a concrete non-debug configuration, main DOM state,
and the Scenario C dataset. -/
theorem c3_failed_final_save_exit_path_witness :
    Effect.consoleError ∈ on_finish cfgProd domMain scenarioCStore SaveOutcome.failure ∧
    Effect.setBodyHTML (exitMessage cfgProd) ∈ on_finish cfgProd domMain scenarioCStore SaveOutcome.failure ∧
    Effect.scheduleRedirect cfgProd.prolificCUrl 3000 ∈ on_finish cfgProd domMain scenarioCStore SaveOutcome.failure ∧
    (∃ a b, exitMessage cfgProd = a ++ cfgProd.prolificCC ++ b) ∧
    (on_finish cfgProd domMain scenarioCStore SaveOutcome.failure).filter userVisible =
      (on_finish cfgProd domMain scenarioCStore SaveOutcome.success).filter userVisible := by
  obtain ⟨h1, h2, h3, h4, h5⟩ := c3_failed_final_save_exit_path cfgProd domMain scenarioCStore
  exact ⟨h1, h2, h3, h4, h5 rfl⟩

/-- C4 as stated is false: in debug mode the success path schedules the
data display in the content element while the failure path replaces the
body and schedules the redirect, so at the debug configuration the
non-console effect traces of the two outcomes differ. -/
theorem c4_debug_mode_counterexample :
    ¬ ((on_finish cfgDebug domMain emptyStore SaveOutcome.success).filter userVisible =
        (on_finish cfgDebug domMain emptyStore SaveOutcome.failure).filter userVisible) := by
  simp [on_finish, cfgDebug, domMain, emptyStore, exitExperiment, exitExperimentDebugging,
    userVisible, DataCollection.values]

/-- C4 amended: in every non-debug configuration the non-console effect
trace after final-save success equals the one after final-save failure, so
outside debug mode the only observable difference between the two runs is
in logged output. -/
theorem c4_nondebug_terminal_agreement (cfg : Config) (dom : DomState) (data : DataCollection)
    (hdebug : cfg.debug = false) :
    (on_finish cfg dom data SaveOutcome.success).filter userVisible =
      (on_finish cfg dom data SaveOutcome.failure).filter userVisible := by
  rcases cfg with ⟨d, m, cc, url⟩
  rcases dom with ⟨cd⟩
  obtain rfl : d = false := hdebug
  cases cd <;>
    simp [on_finish, exitExperiment, userVisible, DataCollection.values]

/-- Witness for the amended C4 at a concrete non-debug configuration. -/
theorem c4_nondebug_terminal_agreement_witness :
    (on_finish cfgProd domMain emptyStore SaveOutcome.success).filter userVisible =
      (on_finish cfgProd domMain emptyStore SaveOutcome.failure).filter userVisible :=
  c4_nondebug_terminal_agreement cfgProd domMain emptyStore rfl

/-- C7: when an incremental save-one call fails, the failure continuation
only logs the error: the trace holds the error log, exactly one save-one
dispatch with no retry, and nothing besides the optional debug log of the
event, the dispatch, and the error log, so nothing is propagated and no
effect touches the timeline. -/
theorem c7_incremental_failure_logged_only (cfg : Config) (trialData : TrialData)
    (hsi : trialData.saveIncrementally = true) :
    Effect.consoleError ∈ on_data_update cfg trialData SaveOutcome.failure ∧
    (on_data_update cfg trialData SaveOutcome.failure).countP isSavePartialDispatch = 1 ∧
    (∀ e ∈ on_data_update cfg trialData SaveOutcome.failure,
      e = Effect.consoleLog "jsPsych-update :: trialData ::" ∨
      e = Effect.savePartialDispatch trialData ∨
      e = Effect.consoleError) := by
  rcases cfg with ⟨d, m, cc, url⟩
  rcases trialData with ⟨t, r, co, cr, rt, si⟩
  obtain rfl : si = true := hsi
  cases d <;> simp [on_data_update, isSavePartialDispatch]

/-- Witness for C7 at a concrete configuration and an incrementally saved
trial event. -/
theorem c7_incremental_failure_logged_only_witness :
    Effect.consoleError ∈ on_data_update cfgProd incTrial SaveOutcome.failure ∧
    (on_data_update cfgProd incTrial SaveOutcome.failure).countP isSavePartialDispatch = 1 ∧
    (∀ e ∈ on_data_update cfgProd incTrial SaveOutcome.failure,
      e = Effect.consoleLog "jsPsych-update :: trialData ::" ∨
      e = Effect.savePartialDispatch incTrial ∨
      e = Effect.consoleError) :=
  c7_incremental_failure_logged_only cfgProd incTrial rfl

/-- C5 as stated is false: the debrief block does not special-case a
dataset without response-tagged events, so on a dataset holding only a
fixation event the accuracy output is NaN. -/
theorem c5_zero_response_nan_counterexample :
    (debriefSummary fixStore).accuracy = JSNum.nan := by
  rfl

/-- C5 amended: on a dataset with zero response-tagged events the debrief
summarizer raises no division error because the computation is total, but
the undefined ratio is not special-cased: both outputs are NaN. -/
theorem c5_zero_response_total_but_nan (store : DataCollection)
    (h : (debrief_trials store).count = 0) :
    debriefSummary store = ⟨JSNum.nan, JSNum.nan⟩ := by
  have htr : (debrief_trials store).trials = [] := List.length_eq_zero.mp h
  have hct : debrief_correct_trials store = ⟨[]⟩ := by
    simp [debrief_correct_trials, DataCollection.filterCorrect, htr]
  simp [debriefSummary, hct, h, htr, DataCollection.count, DataCollection.selectRt,
    jsMean, jsDivQ, jsMul, jsRound]

/-- Witness for the amended C5 at the empty dataset. -/
theorem c5_zero_response_total_but_nan_witness :
    (debrief_trials emptyStore).count = 0 ∧
      debriefSummary emptyStore = ⟨JSNum.nan, JSNum.nan⟩ :=
  ⟨rfl, c5_zero_response_total_but_nan emptyStore rfl⟩

/-- C6: on a dataset with at least one response trial and at least one
correct response trial, the debrief summarizer computes the rounded value
of one hundred times the number of correct response trials over the number
of response trials, and the rounded mean of the reaction times of the
correct response trials. -/
theorem c6_debrief_formula (store : DataCollection)
    (h1 : (debrief_trials store).count ≠ 0)
    (h2 : (debrief_correct_trials store).count ≠ 0) :
    debriefSummary store =
      { accuracy :=
          JSNum.num ((⌊100 * ((debrief_correct_trials store).count : ℚ) /
            ((debrief_trials store).count : ℚ) + 1 / 2⌋ : ℤ) : ℚ)
        rt :=
          JSNum.num ((⌊(DataCollection.selectRt (debrief_correct_trials store)).sum /
            ((debrief_correct_trials store).count : ℚ) + 1 / 2⌋ : ℤ) : ℚ) } := by
  have ht : ((debrief_trials store).count : ℚ) ≠ 0 := Nat.cast_ne_zero.mpr h1
  have hc : ((debrief_correct_trials store).count : ℚ) ≠ 0 := Nat.cast_ne_zero.mpr h2
  have hlen : ((DataCollection.selectRt (debrief_correct_trials store)).length : ℚ) =
      ((debrief_correct_trials store).count : ℚ) := by
    simp [DataCollection.selectRt, DataCollection.count]
  simp only [debriefSummary, jsMean, hlen, jsDivQ, if_neg ht, if_neg hc, jsMul, jsRound,
    DebriefOutput.mk.injEq, JSNum.num.injEq]
  constructor
  · rw [div_mul_eq_mul_div, mul_comm]
  · trivial

/-- Witness for C6 at the Scenario C dataset: accuracy 67 and reaction
time 400. -/
theorem c6_debrief_formula_witness :
    (debrief_trials scenarioCStore).count ≠ 0 ∧
    (debrief_correct_trials scenarioCStore).count ≠ 0 ∧
    debriefSummary scenarioCStore = ⟨JSNum.num 67, JSNum.num 400⟩ := by
  refine ⟨by decide, by decide, ?_⟩
  have h := c6_debrief_formula scenarioCStore (by decide) (by decide)
  rw [h]
  have hc : (debrief_correct_trials scenarioCStore).count = 2 := by decide
  have ht : (debrief_trials scenarioCStore).count = 3 := by decide
  have hsel : DataCollection.selectRt (debrief_correct_trials scenarioCStore) =
      [(500 : ℚ), 300] := rfl
  rw [hc, ht, hsel]
  simp only [DebriefOutput.mk.injEq, JSNum.num.injEq]
  constructor
  · norm_num
  · norm_num

end Experiment
